import Mathlib

/-! Verification of the triangle rendering demo in `src/triangle/main.go`.
The Go program is shallowly embedded: external OpenGL/GLFW calls become
entries of a command trace, outcomes of external calls (compile status,
info-log content, uniform locations, link status) are fields of an
environment record, and per-frame inputs (elapsed time, key state, external
close requests) are an explicit input list.  Float64/float32 scalars are
modelled as real numbers; the static vertex arrays as rational lists. -/

namespace GLTriangle

open Real

/-- Shader stages, `gl.VERTEX_SHADER` and `gl.FRAGMENT_SHADER`. -/
inductive ShaderType
| vertex
| fragment
deriving DecidableEq

/-- Parameter names queried through `gl.GetShaderiv`. -/
inductive Pname
| COMPILE_STATUS
| INFO_LOG_LENGTH
deriving DecidableEq

/-- The vertex shader source string from `main.go` (Go raw literal plus a
trailing NUL; braces written via escapes). -/
def vertexShaderSource : String :=
"\n\t\t#version 330\n\t\tlayout (location = 0) in vec3 aPos;\n\n\t\tvoid main() \x7b\n\t\t\tgl_Position = vec4(aPos, 1.0);\n\t\t\x7d\n\t" ++ "\x00"

/-- The fragment shader source string from `main.go`. -/
def fragmentShaderSource : String :=
"\n\t\t#version 330\n\t\tout vec4 FragColor;\n\n\t\tuniform vec4 ourColor;\n\n\t\tvoid main() \x7b\n\t\t\tFragColor = ourColor;\n\t\t\x7d\n\t" ++ "\x00"

/-- The foreground triangle's points (`triangle` in `main.go`). -/
def triangle : List ℚ := [0, 0.3, 0, -0.3, -0.3, 0, 0.3, -0.3, 0]

/-- The background triangle's points (`triangleBg` in `main.go`). -/
def triangleBg : List ℚ := [0, 0.32, 0, -0.32, -0.315, 0, 0.32, -0.315, 0]

/-- Environment: the outcomes of the external graphics calls the Go code
makes but does not control.  `compileStatus` is what
`GetShaderiv COMPILE_STATUS` reports for a stage/source pair,
`infoLogLength`/`infoLogContent` what the info-log queries report,
`uniformLoc` what `GetUniformLocation` returns, and `linkStatus` whether
the (unchecked) `LinkProgram` call actually succeeded. -/
structure GLEnv where
  compileStatus : ShaderType → String → Bool
  infoLogLength : ShaderType → String → Nat
  infoLogContent : ShaderType → String → List Char
  uniformLoc : String → Int
  linkStatus : Bool

/-- One GL/GLFW call, as recorded in an execution trace. -/
inductive GLCmd
| createShader (ty : ShaderType)
| shaderSource (shader : Nat) (src : String)
| compileShaderCall (shader : Nat)
| getShaderiv (shader : Nat) (pname : Pname)
| getShaderInfoLog (shader : Nat)
| createProgram
| attachShader (prog shader : Nat)
| linkProgram (prog : Nat)
| genBuffers
| bindBuffer (buf : Nat)
| bufferData (size : Nat) (data : List ℚ)
| genVertexArrays
| bindVertexArray (vao : Nat)
| enableVertexAttribArray (idx : Nat)
| vertexAttribPointer (idx comps : Nat)
| clearColor (r g b a : ℝ)
| clear
| getTime
| getKey (key : Nat)
| setShouldClose
| useProgram (prog : Nat)
| getUniformLocation (prog : Nat) (name : String)
| uniform4f (loc : Int) (x y z w : ℝ)
| drawArrays (mode first count : Nat)
| pollEvents
| swapBuffers

/-- `glfw.KeyEscape`. -/
def keyEscape : Nat := 256

/-- `gl.TRIANGLES`. -/
def TRIANGLES : Nat := 4

/-- The derived colour scalar: `redValue := math.Sin(timeValue)/2 + 0.5`
(`main.go` line 136). -/
noncomputable def redValue (t : ℝ) : ℝ := Real.sin t / 2 + 0.5

/-- The info-log string the failure branch of `compileShader` builds: a
buffer of `logLength+1` NUL bytes (`strings.Repeat("\x00", logLength+1)`)
whose first bytes `gl.GetShaderInfoLog` overwrites with the driver's log. -/
def fetchedLog (env : GLEnv) (ty : ShaderType) (src : String) : String :=
  let logLength := env.infoLogLength ty src
  let written := (env.infoLogContent ty src).take logLength
  String.mk (written ++ List.replicate (logLength + 1 - written.length) (Char.ofNat 0))

/-- Embedding of `compileShader` (`main.go` lines 98-118).  `shader` is the
handle `gl.CreateShader` allocates.  Returns the emitted call trace and
either the shader handle or the error
`fmt.Errorf("failed to compile %v: %v", source, log)`. -/
def compileShader (env : GLEnv) (shader : Nat) (source : String) (shaderType : ShaderType) :
    List GLCmd × Except String Nat :=
  let pre : List GLCmd :=
    [GLCmd.createShader shaderType, GLCmd.shaderSource shader source,
     GLCmd.compileShaderCall shader, GLCmd.getShaderiv shader Pname.COMPILE_STATUS]
  if env.compileStatus shaderType source = false then
    (pre ++ [GLCmd.getShaderiv shader Pname.INFO_LOG_LENGTH, GLCmd.getShaderInfoLog shader],
     Except.error ("failed to compile " ++ source ++ ": " ++ fetchedLog env shaderType source))
  else
    (pre, Except.ok shader)

/-- Embedding of `initOpenGL` (`main.go` lines 74-96).  `gl.Init`, the
version query, and the log print are external-collaborator calls outside
the modelled call alphabet.  A Go `panic(err)` becomes an `Except.error`
that aborts the remainder of the program.  Shader handles 1 and 2 and
program handle 3 model the deterministic allocations. -/
def initOpenGL (env : GLEnv) : List GLCmd × Except String Nat :=
  match compileShader env 1 vertexShaderSource ShaderType.vertex with
  | (tr1, Except.error e) => (tr1, Except.error e)
  | (tr1, Except.ok vertexShader) =>
    match compileShader env 2 fragmentShaderSource ShaderType.fragment with
    | (tr2, Except.error e) => (tr1 ++ tr2, Except.error e)
    | (tr2, Except.ok fragmentShader) =>
      (tr1 ++ tr2 ++
        [GLCmd.createProgram, GLCmd.attachShader 3 vertexShader,
         GLCmd.attachShader 3 fragmentShader, GLCmd.linkProgram 3],
       Except.ok 3)

/-- Embedding of `makeVao` (`main.go` lines 158-173).  `vbo` and `vao` are
the handles `gl.GenBuffers` / `gl.GenVertexArrays` allocate.  The
`gl.BufferData` size is `4*len(points)` bytes and the uploaded data is the
point list itself; `gl.VertexAttribPointer(0, 3, ...)` declares 3
components per vertex. -/
def makeVao (points : List ℚ) (vbo vao : Nat) : List GLCmd × Nat :=
  ([GLCmd.genBuffers, GLCmd.bindBuffer vbo,
    GLCmd.bufferData (4 * points.length) points,
    GLCmd.genVertexArrays, GLCmd.bindVertexArray vao,
    GLCmd.enableVertexAttribArray 0, GLCmd.bindBuffer vbo,
    GLCmd.vertexAttribPointer 0 3], vao)

/-- Per-iteration inputs of the render loop: the `glfw.GetTime` sample,
whether `window.GetKey(glfw.KeyEscape)` returns 1 (pressed, as of the most
recent event poll), whether any key other than escape is pressed, and
whether an external close request (window-manager close) arrives during
this iteration's `glfw.PollEvents`. -/
structure FrameInput where
  time : ℝ
  escapePressed : Bool
  otherKeyPressed : Bool
  extClose : Bool

/-- The call trace of one iteration of the render loop body
(`main.go` lines 129-151): escape-key check (with `SetShouldClose` when
pressed), clear, time sample, `UseProgram`, background bind /
uniform-lookup / uniform-set / draw, foreground uniform-lookup /
uniform-set / bind / draw, `PollEvents`, `SwapBuffers`. -/
noncomputable def frameTrace (program vao vao2 : Nat) (env : GLEnv) (inp : FrameInput) :
    List GLCmd :=
  let c := redValue inp.time
  let loc := env.uniformLoc "ourColor\x00"
  [GLCmd.getKey keyEscape] ++
  (if inp.escapePressed then [GLCmd.setShouldClose] else []) ++
  [GLCmd.clear,
   GLCmd.getTime,
   GLCmd.useProgram program,
   GLCmd.bindVertexArray vao2,
   GLCmd.getUniformLocation program "ourColor\x00",
   GLCmd.uniform4f loc (c / 1.5) (c / 2) 0 1,
   GLCmd.drawArrays TRIANGLES 0 (triangleBg.length / 3),
   GLCmd.getUniformLocation program "ourColor\x00",
   GLCmd.uniform4f loc c c 0 1,
   GLCmd.bindVertexArray vao,
   GLCmd.drawArrays TRIANGLES 0 (triangle.length / 3),
   GLCmd.pollEvents,
   GLCmd.swapBuffers]

/-- The render loop (`main.go` lines 129-152).  `sc` is the window's
should-close flag: `window.ShouldClose()` is checked before each
iteration; a pressed escape key sets it via `SetShouldClose(true)`, and an
external close request delivered during `PollEvents` also sets it.  The
body of an iteration always runs to completion once entered. -/
noncomputable def renderLoop (program vao vao2 : Nat) (env : GLEnv) :
    Bool → List FrameInput → List GLCmd
  | _, [] => []
  | sc, inp :: rest =>
    if sc then []
    else
      frameTrace program vao vao2 env inp ++
        renderLoop program vao vao2 env (inp.escapePressed || inp.extClose) rest

/-- The whole program after window creation (`main.go` lines 120-155):
`initOpenGL` (a compile panic aborts everything), the two `makeVao`
uploads (handles 4/5 and 6/7), `gl.ClearColor(0.3, 0.3, 0.3, 1.0)`, then
the render loop over the given per-frame inputs. -/
noncomputable def mainTrace (env : GLEnv) (inputs : List FrameInput) :
    List GLCmd × Except String Unit :=
  match initOpenGL env with
  | (tr, Except.error e) => (tr, Except.error e)
  | (tr, Except.ok program) =>
    let v := makeVao triangle 4 5
    let v2 := makeVao triangleBg 6 7
    (tr ++ v.1 ++ v2.1 ++
       [GLCmd.clearColor 0.3 0.3 0.3 1.0] ++
       renderLoop program v.2 v2.2 env false inputs,
     Except.ok ())

/-- The loop-state abstraction named by the specification. -/
inductive LoopState
| running
| closing
deriving DecidableEq

/-- The loop state corresponding to a value of the should-close flag. -/
def stateOf (sc : Bool) : LoopState :=
  if sc then LoopState.closing else LoopState.running

/-- The should-close flag after one iteration of the loop, as the code
computes it: once set it stays set; otherwise it is set exactly when the
escape key is seen pressed or an external close request arrives. -/
def nextFlag (sc : Bool) (inp : FrameInput) : Bool :=
  if sc then true else inp.escapePressed || inp.extClose

/-- Command classifiers used by the theorems below. -/
def isDrawCall : GLCmd → Bool
  | GLCmd.drawArrays _ _ _ => true
  | _ => false

/-- Whether a command is a `gl.GetUniformLocation` lookup. -/
def isUniformLookup : GLCmd → Bool
  | GLCmd.getUniformLocation _ _ => true
  | _ => false

/-- Whether a command is a `gl.Uniform4f` store. -/
def isUniformStore : GLCmd → Bool
  | GLCmd.uniform4f _ _ _ _ _ => true
  | _ => false

/-- Whether a command is a bind, uniform store, or draw: the calls that
determine what each triangle is drawn with. -/
def isRenderCall : GLCmd → Bool
  | GLCmd.bindVertexArray _ => true
  | GLCmd.uniform4f _ _ _ _ _ => true
  | GLCmd.drawArrays _ _ _ => true
  | _ => false

/-- Whether a command is a `gl.BufferData` upload. -/
def isBufferUpload : GLCmd → Bool
  | GLCmd.bufferData _ _ => true
  | _ => false

/-- Whether a command is a `SwapBuffers` presentation. -/
def isSwap : GLCmd → Bool
  | GLCmd.swapBuffers => true
  | _ => false

/-- The shape of a command with its value arguments erased, for stating
and deciding ordering facts about a frame. -/
inductive StepKind
| getKey
| setShouldClose
| clear
| getTime
| useProgram
| bindVertexArray
| getUniformLocation
| uniform4f
| drawArrays
| pollEvents
| swapBuffers
| setup
deriving DecidableEq

/-- The kind of a command. -/
def kindOf : GLCmd → StepKind
  | GLCmd.getKey _ => StepKind.getKey
  | GLCmd.setShouldClose => StepKind.setShouldClose
  | GLCmd.clear => StepKind.clear
  | GLCmd.getTime => StepKind.getTime
  | GLCmd.useProgram _ => StepKind.useProgram
  | GLCmd.bindVertexArray _ => StepKind.bindVertexArray
  | GLCmd.getUniformLocation _ _ => StepKind.getUniformLocation
  | GLCmd.uniform4f _ _ _ _ _ => StepKind.uniform4f
  | GLCmd.drawArrays _ _ _ => StepKind.drawArrays
  | GLCmd.pollEvents => StepKind.pollEvents
  | GLCmd.swapBuffers => StepKind.swapBuffers
  | _ => StepKind.setup

/-- The kind sequence of one render-loop iteration. -/
noncomputable def frameKinds (program vao vao2 : Nat) (env : GLEnv) (inp : FrameInput) :
    List StepKind :=
  (frameTrace program vao vao2 env inp).map kindOf

/-- Modelled from the spec's design note: the cached-lookup variant of a
frame, in which the `ourColor` location was looked up once after the link
and the cached handle is reused, so the frame performs no
`GetUniformLocation` calls and is otherwise unchanged. -/
noncomputable def frameTraceCached (program vao vao2 : Nat) (cachedLoc : Int) (inp : FrameInput) :
    List GLCmd :=
  let c := redValue inp.time
  [GLCmd.getKey keyEscape] ++
  (if inp.escapePressed then [GLCmd.setShouldClose] else []) ++
  [GLCmd.clear,
   GLCmd.getTime,
   GLCmd.useProgram program,
   GLCmd.bindVertexArray vao2,
   GLCmd.uniform4f cachedLoc (c / 1.5) (c / 2) 0 1,
   GLCmd.drawArrays TRIANGLES 0 (triangleBg.length / 3),
   GLCmd.uniform4f cachedLoc c c 0 1,
   GLCmd.bindVertexArray vao,
   GLCmd.drawArrays TRIANGLES 0 (triangle.length / 3),
   GLCmd.pollEvents,
   GLCmd.swapBuffers]

/-- The per-iteration step order the specification claims, on first
occurrences of each step kind: time sample before clear, clear before
program activation, activation before the draws, the draws before the
escape-key check and the event poll, and the poll before the buffer
swap. -/
def specFrameOrder (ks : List StepKind) : Prop :=
  ks.indexOf StepKind.getTime < ks.indexOf StepKind.clear ∧
  ks.indexOf StepKind.clear < ks.indexOf StepKind.useProgram ∧
  ks.indexOf StepKind.useProgram < ks.indexOf StepKind.drawArrays ∧
  ks.indexOf StepKind.drawArrays < ks.indexOf StepKind.getKey ∧
  ks.indexOf StepKind.drawArrays < ks.indexOf StepKind.pollEvents ∧
  ks.indexOf StepKind.pollEvents < ks.indexOf StepKind.swapBuffers

/-- Both stages compile, the setup succeeds. -/
def initOk (env : GLEnv) : Prop :=
  env.compileStatus ShaderType.vertex vertexShaderSource = true ∧
  env.compileStatus ShaderType.fragment fragmentShaderSource = true

/-- An environment in which every external call succeeds. -/
def envOk : GLEnv where
  compileStatus := fun _ _ => true
  infoLogLength := fun _ _ => 0
  infoLogContent := fun _ _ => []
  uniformLoc := fun _ => 0
  linkStatus := true

/-- An environment in which every shader compilation fails, reporting a
one-character info log. -/
def envAllFail : GLEnv where
  compileStatus := fun _ _ => false
  infoLogLength := fun _ _ => 1
  infoLogContent := fun _ _ => ['x']
  uniformLoc := fun _ => 0
  linkStatus := true

/-- An environment in which both compilations succeed but the (unchecked)
program link fails. -/
def envBadLink : GLEnv where
  compileStatus := fun _ _ => true
  infoLogLength := fun _ _ => 0
  infoLogContent := fun _ _ => []
  uniformLoc := fun _ => 0
  linkStatus := false

/-- A quiet frame input: time 0, no keys pressed, no external close. -/
noncomputable def inp0 : FrameInput where
  time := 0
  escapePressed := false
  otherKeyPressed := false
  extClose := false

/-- A frame input with the escape key pressed. -/
noncomputable def inpEsc : FrameInput where
  time := 0
  escapePressed := true
  otherKeyPressed := false
  extClose := false

/-- The derived colour scalar is never negative. -/
theorem redValue_nonneg (t : ℝ) : 0 ≤ redValue t := by
  have h := Real.neg_one_le_sin t
  unfold redValue
  nlinarith

/-- The derived colour scalar never exceeds 1. -/
theorem redValue_le_one (t : ℝ) : redValue t ≤ 1 := by
  have h := Real.sin_le_one t
  unfold redValue
  nlinarith

/-- C2: for every time value `t`, the derived colour scalar
`redValue t = sin t / 2 + 0.5` lies in the closed interval `[0,1]`, and
the sampled values hold exactly in the real model: `redValue 0 = 0.5`,
`redValue (π/2) = 1`, `redValue π = 0.5`, `redValue (3π/2) = 0`. -/
theorem C2_redValue_range_and_samples :
    (∀ t : ℝ, redValue t ∈ Set.Icc (0 : ℝ) 1) ∧
    redValue 0 = 0.5 ∧
    redValue (Real.pi / 2) = 1 ∧
    redValue Real.pi = 0.5 ∧
    redValue (3 * Real.pi / 2) = 0 := by
  refine ⟨fun t => ⟨redValue_nonneg t, redValue_le_one t⟩, ?_, ?_, ?_, ?_⟩
  · simp [redValue]
  · rw [redValue, Real.sin_pi_div_two]; norm_num
  · rw [redValue, Real.sin_pi]; norm_num
  · have h3 : (3 * Real.pi / 2 : ℝ) = Real.pi + Real.pi / 2 := by ring
    rw [redValue, h3, Real.sin_add, Real.sin_pi, Real.cos_pi, Real.sin_pi_div_two]
    norm_num

/-- C1: in every frame, writing `c` for the derived scalar
`redValue t = sin t / 2 + 0.5`, the render calls of the frame are exactly:
bind the background geometry, set `ourColor` to `(c/1.5, c/2, 0, 1)`,
draw its 3 vertices, set `ourColor` to `(c, c, 0, 1)`, bind the
foreground geometry, draw its 3 vertices — so the background uniform and
draw come first and the foreground uniform and draw second. -/
theorem C1_frame_uniforms_and_draw_order
    (program vao vao2 : Nat) (env : GLEnv) (inp : FrameInput) :
    (frameTrace program vao vao2 env inp).filter isRenderCall =
      [GLCmd.bindVertexArray vao2,
       GLCmd.uniform4f (env.uniformLoc "ourColor\x00")
         (redValue inp.time / 1.5) (redValue inp.time / 2) 0 1,
       GLCmd.drawArrays TRIANGLES 0 3,
       GLCmd.uniform4f (env.uniformLoc "ourColor\x00")
         (redValue inp.time) (redValue inp.time) 0 1,
       GLCmd.bindVertexArray vao,
       GLCmd.drawArrays TRIANGLES 0 3] := by
  cases h : inp.escapePressed <;>
    simp [frameTrace, isRenderCall, h, triangle, triangleBg]

/-- C10: in every frame the background triangle's uniform components are
each at most the corresponding foreground components: the stores are
`(c/1.5, c/2, 0, 1)` then `(c, c, 0, 1)` with `c = redValue t ≥ 0`, and
`c/1.5 ≤ c`, `c/2 ≤ c`, `0 ≤ 0`, `1 ≤ 1`. -/
theorem C10_background_not_brighter
    (program vao vao2 : Nat) (env : GLEnv) (inp : FrameInput) :
    (frameTrace program vao vao2 env inp).filter isUniformStore =
      [GLCmd.uniform4f (env.uniformLoc "ourColor\x00")
         (redValue inp.time / 1.5) (redValue inp.time / 2) 0 1,
       GLCmd.uniform4f (env.uniformLoc "ourColor\x00")
         (redValue inp.time) (redValue inp.time) 0 1] ∧
    redValue inp.time / 1.5 ≤ redValue inp.time ∧
    redValue inp.time / 2 ≤ redValue inp.time ∧
    (0 : ℝ) ≤ 0 ∧ (1 : ℝ) ≤ 1 := by
  have h0 := redValue_nonneg inp.time
  refine ⟨?_, ?_, ?_, le_refl _, le_refl _⟩
  · cases h : inp.escapePressed <;> simp [frameTrace, isUniformStore, h]
  · exact div_le_self h0 (by norm_num)
  · exact div_le_self h0 (by norm_num)

/-- C5 counterexample: in a concrete frame the claimed step order fails —
the code checks the escape key first and clears before sampling the time,
whereas the claim puts the time sample first, the clear third, and the
escape check after the draws. -/
theorem C5_counterexample :
    ¬ specFrameOrder (frameKinds 3 5 7 envOk inp0) := by
  have hk : frameKinds 3 5 7 envOk inp0 =
      [StepKind.getKey, StepKind.clear, StepKind.getTime, StepKind.useProgram,
       StepKind.bindVertexArray, StepKind.getUniformLocation, StepKind.uniform4f,
       StepKind.drawArrays, StepKind.getUniformLocation, StepKind.uniform4f,
       StepKind.bindVertexArray, StepKind.drawArrays, StepKind.pollEvents,
       StepKind.swapBuffers] := by
    simp [frameKinds, frameTrace, kindOf, inp0]
  rw [hk]
  unfold specFrameOrder
  decide

/-- C5 (amended): each render-loop iteration performs its steps in the
order the code fixes: (1) escape-key check, requesting window close when
pressed, (2) clear the targets (to the colour 0.3,0.3,0.3,1.0 installed
once before the loop), (3) sample the elapsed time and derive `c` from
it, (4) activate the program, (5) background draw, (6) foreground draw,
(7) poll pending events, (8) present the frame by swapping buffers. -/
theorem C5_frame_step_order
    (program vao vao2 : Nat) (env : GLEnv) (inp : FrameInput) :
    frameKinds program vao vao2 env inp =
      [StepKind.getKey] ++
      (if inp.escapePressed then [StepKind.setShouldClose] else []) ++
      [StepKind.clear, StepKind.getTime, StepKind.useProgram,
       StepKind.bindVertexArray, StepKind.getUniformLocation, StepKind.uniform4f,
       StepKind.drawArrays, StepKind.getUniformLocation, StepKind.uniform4f,
       StepKind.bindVertexArray, StepKind.drawArrays, StepKind.pollEvents,
       StepKind.swapBuffers] := by
  cases h : inp.escapePressed <;> simp [frameKinds, frameTrace, kindOf, h]

/-- C8: every frame issues exactly 2 draw calls regardless of the time
value, each over `length/3 = 3` vertices of the corresponding 9-float
point set, and the buffer upload passes each 9-float point set through
unchanged (size `4*9` bytes) with 3 components per vertex declared. -/
theorem C8_two_draws_three_vertices
    (program vao vao2 : Nat) (env : GLEnv) (inp : FrameInput) :
    ((frameTrace program vao vao2 env inp).filter isDrawCall).length = 2 ∧
    (frameTrace program vao vao2 env inp).filter isDrawCall =
      [GLCmd.drawArrays TRIANGLES 0 (triangleBg.length / 3),
       GLCmd.drawArrays TRIANGLES 0 (triangle.length / 3)] ∧
    triangle.length = 9 ∧ triangleBg.length = 9 ∧
    triangle.length / 3 = 3 ∧ triangleBg.length / 3 = 3 ∧
    (makeVao triangle 4 5).1.filter isBufferUpload =
      [GLCmd.bufferData (4 * 9) triangle] ∧
    (makeVao triangleBg 6 7).1.filter isBufferUpload =
      [GLCmd.bufferData (4 * 9) triangleBg] ∧
    GLCmd.vertexAttribPointer 0 3 ∈ (makeVao triangle 4 5).1 ∧
    GLCmd.vertexAttribPointer 0 3 ∈ (makeVao triangleBg 6 7).1 := by
  refine ⟨?_, ?_, by simp [triangle], by simp [triangleBg], by simp [triangle],
    by simp [triangleBg], by simp [makeVao, isBufferUpload, triangle],
    by simp [makeVao, isBufferUpload, triangleBg], by simp [makeVao],
    by simp [makeVao]⟩ <;>
  · cases h : inp.escapePressed <;> simp [frameTrace, isDrawCall, h]

/-- C9: caching the `ourColor` location once after the link and reusing
it is equivalent to the per-frame lookups the code performs: both
per-frame lookups query the same name on the same program and the model
returns the same location for them, so erasing the two lookup calls from
a frame yields exactly the cached-variant frame, leaving every bind,
uniform store, and draw unchanged. -/
theorem C9_cached_lookup_equivalent
    (program vao vao2 : Nat) (env : GLEnv) (inp : FrameInput) :
    (frameTrace program vao vao2 env inp).filter isUniformLookup =
      [GLCmd.getUniformLocation program "ourColor\x00",
       GLCmd.getUniformLocation program "ourColor\x00"] ∧
    (frameTrace program vao vao2 env inp).filter (fun c => !(isUniformLookup c)) =
      frameTraceCached program vao vao2 (env.uniformLoc "ourColor\x00") inp := by
  constructor <;>
  · cases h : inp.escapePressed <;>
      simp [frameTrace, frameTraceCached, isUniformLookup, h]

/-- A closed loop never runs another iteration. -/
theorem renderLoop_closing (program vao vao2 : Nat) (env : GLEnv)
    (inputs : List FrameInput) :
    renderLoop program vao vao2 env true inputs = [] := by
  cases inputs <;> simp [renderLoop]

/-- The length of a packed character list as a string. -/
theorem string_mk_length (l : List Char) : (String.mk l).length = l.length := rfl

/-- The diagnostic buffer always holds `infoLogLength + 1` characters. -/
theorem fetchedLog_length (env : GLEnv) (ty : ShaderType) (src : String) :
    (fetchedLog env ty src).length = env.infoLogLength ty src + 1 := by
  have hw : ((env.infoLogContent ty src).take (env.infoLogLength ty src)).length ≤
      env.infoLogLength ty src := by
    simp [List.length_take]
  simp only [fetchedLog, string_mk_length, List.length_append, List.length_replicate]
  omega

/-- C6: the render loop is the two-state machine the spec describes:
every loop state is Running or Closing; from Running the next state is
Closing exactly when the escape key is seen pressed or an external close
signal arrives, and Closing is absorbing; no key other than escape
affects the transition; a closed loop executes nothing more (Closing is
terminal); each iteration from Running appends one frame and steps the
flag; and when escape is seen pressed the loop runs only that final
frame — no later iteration is executed. -/
theorem C6_loop_state_machine :
    (∀ s : LoopState, s = LoopState.running ∨ s = LoopState.closing) ∧
    (∀ (sc : Bool) (inp : FrameInput),
        stateOf (nextFlag sc inp) = LoopState.closing ↔
          (stateOf sc = LoopState.closing ∨ inp.escapePressed = true ∨
            inp.extClose = true)) ∧
    (∀ (sc : Bool) (inp : FrameInput) (b : Bool),
        nextFlag sc { inp with otherKeyPressed := b } = nextFlag sc inp) ∧
    (∀ (program vao vao2 : Nat) (env : GLEnv) (inputs : List FrameInput),
        renderLoop program vao vao2 env true inputs = []) ∧
    (∀ (program vao vao2 : Nat) (env : GLEnv) (inp : FrameInput)
        (rest : List FrameInput),
        renderLoop program vao vao2 env false (inp :: rest) =
          frameTrace program vao vao2 env inp ++
            renderLoop program vao vao2 env (nextFlag false inp) rest) ∧
    (∀ (program vao vao2 : Nat) (env : GLEnv) (inp : FrameInput)
        (rest : List FrameInput),
        inp.escapePressed = true →
          renderLoop program vao vao2 env false (inp :: rest) =
            frameTrace program vao vao2 env inp) := by
  refine ⟨fun s => by cases s <;> simp, ?_, ?_, renderLoop_closing, ?_, ?_⟩
  · intro sc inp
    cases sc <;> cases h1 : inp.escapePressed <;> cases h2 : inp.extClose <;>
      simp [stateOf, nextFlag, h1, h2]
  · intro sc inp b
    cases sc <;> simp [nextFlag]
  · intro program vao vao2 env inp rest
    simp [renderLoop, nextFlag]
  · intro program vao vao2 env inp rest h
    simp [renderLoop, h, renderLoop_closing]

/-- C6 witness: with the escape key seen pressed in the first frame, the
loop over two queued inputs executes exactly that one frame. -/
theorem C6_witness :
    renderLoop 3 5 7 envOk false [inpEsc, inp0] = frameTrace 3 5 7 envOk inpEsc :=
  C6_loop_state_machine.2.2.2.2.2 3 5 7 envOk inpEsc [inp0] rfl

/-- C3: `compileShader` returns an error exactly when the reported
compile status is false; the info log is fetched from the shader object
exactly in that failure branch; and a compile failure of either stage
aborts the whole program — `mainTrace` ends in an error and its trace
contains no draw, no buffer swap, and not even the program link. -/
theorem C3_compile_failure_is_fatal :
    (∀ (env : GLEnv) (shader : Nat) (src : String) (ty : ShaderType),
        (∃ e, (compileShader env shader src ty).2 = Except.error e) ↔
          env.compileStatus ty src = false) ∧
    (∀ (env : GLEnv) (shader : Nat) (src : String) (ty : ShaderType),
        GLCmd.getShaderInfoLog shader ∈ (compileShader env shader src ty).1 ↔
          env.compileStatus ty src = false) ∧
    (∀ (env : GLEnv) (inputs : List FrameInput),
        env.compileStatus ShaderType.vertex vertexShaderSource = false ∨
          env.compileStatus ShaderType.fragment fragmentShaderSource = false →
        (∃ e, (mainTrace env inputs).2 = Except.error e) ∧
        ∀ c ∈ (mainTrace env inputs).1,
          isDrawCall c = false ∧ isSwap c = false ∧ c ≠ GLCmd.linkProgram 3) := by
  refine ⟨?_, ?_, ?_⟩
  · intro env shader src ty
    cases h : env.compileStatus ty src <;> simp [compileShader, h]
  · intro env shader src ty
    cases h : env.compileStatus ty src <;> simp [compileShader, h]
  · intro env inputs h
    cases hv : env.compileStatus ShaderType.vertex vertexShaderSource
    · constructor <;>
        simp [mainTrace, initOpenGL, compileShader, hv, isDrawCall, isSwap]
    · have hf : env.compileStatus ShaderType.fragment fragmentShaderSource = false := by
        rcases h with h | h
        · exact absurd hv (by simp [h])
        · exact h
      constructor <;>
        simp [mainTrace, initOpenGL, compileShader, hv, hf, isDrawCall, isSwap]

/-- C3 witness: in the environment where every compilation fails, the
program aborts with an error and its trace contains no draw, swap, or
link. -/
theorem C3_witness :
    (∃ e, (mainTrace envAllFail [inp0]).2 = Except.error e) ∧
    ∀ c ∈ (mainTrace envAllFail [inp0]).1,
      isDrawCall c = false ∧ isSwap c = false ∧ c ≠ GLCmd.linkProgram 3 :=
  C3_compile_failure_is_fatal.2.2 envAllFail [inp0] (Or.inl rfl)

/-- C4 counterexample: the error value of a failed compilation does not
carry the stage — the vertex and fragment stages produce the identical
error for the same source, so no reading of the error can recover a
stage that "matches the input" for both. -/
theorem C4_counterexample :
    (compileShader envAllFail 1 "bad" ShaderType.vertex).2 =
      (compileShader envAllFail 1 "bad" ShaderType.fragment).2 ∧
    ShaderType.vertex ≠ ShaderType.fragment ∧
    ¬ ∃ stageOf : String → ShaderType,
        ∀ (ty : ShaderType) (src : String) (e : String),
          (compileShader envAllFail 1 src ty).2 = Except.error e →
            stageOf e = ty := by
  refine ⟨rfl, by decide, ?_⟩
  rintro ⟨stageOf, hf⟩
  have h1 := hf ShaderType.vertex "bad" _ rfl
  have h2 := hf ShaderType.fragment "bad" _ rfl
  exact absurd (h1.symm.trans h2) (by decide)

/-- C4 (amended): a compile failure yields the error
`failed to compile <source>: <log>`, which embeds the shader source text
and the fetched diagnostic log rather than the stage; the diagnostic
buffer has length `infoLogLength + 1 ≥ 1`, so it is never the empty
string. -/
theorem C4_amended_error_carries_source_and_log
    (env : GLEnv) (shader : Nat) (src : String) (ty : ShaderType)
    (h : env.compileStatus ty src = false) :
    (compileShader env shader src ty).2 =
      Except.error ("failed to compile " ++ src ++ ": " ++ fetchedLog env ty src) ∧
    (fetchedLog env ty src).length = env.infoLogLength ty src + 1 ∧
    0 < (fetchedLog env ty src).length := by
  refine ⟨by simp [compileShader, h], fetchedLog_length env ty src, ?_⟩
  rw [fetchedLog_length env ty src]
  omega

/-- C4 witness: a concrete failing compilation producing the concrete
error string with its non-empty two-character log buffer. -/
theorem C4_witness :
    (compileShader envAllFail 1 "bad" ShaderType.vertex).2 =
      Except.error ("failed to compile " ++ "bad" ++ ": " ++
        fetchedLog envAllFail ShaderType.vertex "bad") ∧
    (fetchedLog envAllFail ShaderType.vertex "bad").length =
      envAllFail.infoLogLength ShaderType.vertex "bad" + 1 ∧
    0 < (fetchedLog envAllFail ShaderType.vertex "bad").length :=
  C4_amended_error_carries_source_and_log envAllFail 1 "bad" ShaderType.vertex rfl

/-- C7 counterexample: the claim's "successfully linked" part fails — in
the environment whose (never queried) link status is false, the program
still performs uniform lookups and draw calls. -/
theorem C7_counterexample :
    envBadLink.linkStatus = false ∧
    GLCmd.getUniformLocation 3 "ourColor\x00" ∈ (mainTrace envBadLink [inp0]).1 ∧
    ∃ c ∈ (mainTrace envBadLink [inp0]).1, isDrawCall c = true := by
  refine ⟨rfl, ?_, ⟨GLCmd.drawArrays TRIANGLES 0 (triangleBg.length / 3), ?_, rfl⟩⟩
  · simp [mainTrace, initOpenGL, compileShader, envBadLink, makeVao, renderLoop,
      frameTrace, inp0]
  · simp [mainTrace, initOpenGL, compileShader, envBadLink, makeVao, renderLoop,
      frameTrace, inp0]

/-- C7 (amended): when both stages compile, the program trace splits into
a setup prefix and the loop: the prefix uploads both geometry buffers
(with their attribute layout) and issues the `LinkProgram` call, and
contains no draw call and no uniform lookup — so every upload and the
link call precede every draw and lookup.  Link success itself is never
queried by the program. -/
theorem C7_amended_setup_precedes_use
    (env : GLEnv) (inputs : List FrameInput) (h : initOk env) :
    ∃ setup rest, (mainTrace env inputs).1 = setup ++ rest ∧
      GLCmd.linkProgram 3 ∈ setup ∧
      GLCmd.bufferData (4 * triangle.length) triangle ∈ setup ∧
      GLCmd.bufferData (4 * triangleBg.length) triangleBg ∈ setup ∧
      GLCmd.vertexAttribPointer 0 3 ∈ setup ∧
      (∀ c ∈ setup, isDrawCall c = false ∧ isUniformLookup c = false) ∧
      rest = renderLoop 3 5 7 env false inputs := by
  obtain ⟨h1, h2⟩ := h
  refine ⟨(initOpenGL env).1 ++ (makeVao triangle 4 5).1 ++ (makeVao triangleBg 6 7).1 ++
      [GLCmd.clearColor 0.3 0.3 0.3 1.0],
    renderLoop 3 5 7 env false inputs, ?_, ?_, ?_, ?_, ?_, ?_, rfl⟩ <;>
    simp [mainTrace, initOpenGL, compileShader, makeVao, h1, h2, isDrawCall,
      isUniformLookup]

/-- C7 witness: the setup-before-use split at the all-success environment
with one queued frame. -/
theorem C7_witness :
    ∃ setup rest, (mainTrace envOk [inp0]).1 = setup ++ rest ∧
      GLCmd.linkProgram 3 ∈ setup ∧
      GLCmd.bufferData (4 * triangle.length) triangle ∈ setup ∧
      GLCmd.bufferData (4 * triangleBg.length) triangleBg ∈ setup ∧
      GLCmd.vertexAttribPointer 0 3 ∈ setup ∧
      (∀ c ∈ setup, isDrawCall c = false ∧ isUniformLookup c = false) ∧
      rest = renderLoop 3 5 7 envOk false [inp0] :=
  C7_amended_setup_precedes_use envOk [inp0] ⟨rfl, rfl⟩

end GLTriangle
